import Mathlib

/-!
Verification of the payment-distribution and revenue-accounting subsystem of
the CostByte e-commerce platform (`ai_core/payment_processor.py` and
`ai_core/revenue_tracker.py`), as a shallow embedding in Lean.

Python `Decimal` amounts are modelled as exact rationals (ℚ): the default
`Decimal` context is exact for the multiplications the code performs at any
realistic magnitude.  Timestamps are modelled as integer day indices.
External nondeterminism (the simulated gateway's random 2% failure, its
time/hash-derived transaction ids, and `random.uniform` draws) is threaded
explicitly as input parameters, so that a source function with no such
parameter is one that consults no randomness.
-/

set_option maxHeartbeats 1000000

namespace EcommerceAI

/-! ## FNBPaymentProcessor (ai_core/payment_processor.py, lines 8–151) -/

/-- `self.payout_distribution` from `FNBPaymentProcessor.__init__`. -/
structure PayoutDist where
  owner : ℚ
  ai_operations : ℚ
  reserve : ℚ
  deriving DecidableEq

/-- `self.accounts` from `FNBPaymentProcessor.__init__`. -/
structure Accounts where
  owner_account : String
  ai_operations_account : String
  reserve_account : String
  deriving DecidableEq

/-- The `distribution_breakdown` sub-dict built by `_distribute_funds`
(`float(ratio * 100)` per bucket; the floats involved are exact). -/
structure DistributionBreakdown where
  owner_percentage : ℚ
  ai_operations_percentage : ℚ
  reserve_percentage : ℚ
  deriving DecidableEq

/-- The dict returned by `FNBPaymentProcessor._distribute_funds`. -/
structure Distribution where
  owner_amount : ℚ
  ai_operations_amount : ℚ
  reserve_amount : ℚ
  distribution_breakdown : DistributionBreakdown
  deriving DecidableEq

/-- The dict returned by `FNBPaymentProcessor._fnb_transfer`: always status
`"completed"`.  The time/hash-derived `reference`, `timestamp` and
`transfer_id` strings are external output noise and are not modelled. -/
structure TransferResult where
  status : String
  to_account : String
  amount : ℚ
  deriving DecidableEq

/-- The per-bucket dict built by `FNBPaymentProcessor._execute_payouts`. -/
structure Payouts where
  owner : TransferResult
  ai_operations : TransferResult
  reserve : TransferResult
  deriving DecidableEq

/-- One entry of `self.transaction_history` as appended by `process_payment`. -/
structure TransactionRecord where
  transaction_id : String
  amount : ℚ
  customer_email : String
  distribution : Distribution
  payouts : Payouts
  timestamp : Int
  status : String
  deriving DecidableEq

/-- The mutable state of an `FNBPaymentProcessor` instance. -/
structure ProcState where
  accounts : Accounts
  payout_distribution : PayoutDist
  transaction_history : List TransactionRecord
  deriving DecidableEq

/-- `FNBPaymentProcessor.__init__`. -/
def initState : ProcState :=
  { accounts :=
      { owner_account := "6212345678901"
        ai_operations_account := "6212345678902"
        reserve_account := "6212345678903" }
    payout_distribution := { owner := 60/100, ai_operations := 20/100, reserve := 20/100 }
    transaction_history := [] }

/-- `FNBPaymentProcessor._distribute_funds`. -/
def distribute_funds (s : ProcState) (amount : ℚ) : Distribution :=
  { owner_amount := amount * s.payout_distribution.owner
    ai_operations_amount := amount * s.payout_distribution.ai_operations
    reserve_amount := amount * s.payout_distribution.reserve
    distribution_breakdown :=
      { owner_percentage := s.payout_distribution.owner * 100
        ai_operations_percentage := s.payout_distribution.ai_operations * 100
        reserve_percentage := s.payout_distribution.reserve * 100 } }

/-- `FNBPaymentProcessor._fnb_transfer` (simulated, always completes). -/
def fnb_transfer (account_number : String) (amount : ℚ) : TransferResult :=
  { status := "completed", to_account := account_number, amount := amount }

/-- `FNBPaymentProcessor._execute_payouts`: one transfer per `*_amount` key of
the distribution, to the matching account. -/
def execute_payouts (s : ProcState) (d : Distribution) : Payouts :=
  { owner := fnb_transfer s.accounts.owner_account d.owner_amount
    ai_operations := fnb_transfer s.accounts.ai_operations_account d.ai_operations_amount
    reserve := fnb_transfer s.accounts.reserve_account d.reserve_amount }

/-- Outcome of `FNBPaymentProcessor._fnb_payment_gateway`, threaded as an
input: the source draws `random.random() < 0.02` and a time-derived id. -/
inductive GatewayResult where
  | success (transaction_id : String)
  | failed (error : String)
  deriving DecidableEq

/-- One call's inputs to `process_payment`: the amount, the customer data
(only `email` is read), the gateway outcome, and the current time. -/
structure PaymentInput where
  amount : ℚ
  customer_email : String
  gateway : GatewayResult
  now : Int
  deriving DecidableEq

/-- The dict returned by `process_payment`: either the completed dict with
`payment_status: "completed"` or the `payment_status: "failed"` dict that
carries only the gateway's error. -/
inductive PaymentResult where
  | completed (amount : ℚ) (distribution : Distribution) (payouts : Payouts)
      (transaction_id : String)
  | failed (error : String)
  deriving DecidableEq

/-- `FNBPaymentProcessor.process_payment`: on gateway success it distributes,
executes payouts, appends a `"completed"` record and returns the completed
dict; otherwise it returns the failed dict and leaves all state unchanged. -/
def process_payment (s : ProcState) (inp : PaymentInput) : PaymentResult × ProcState :=
  match inp.gateway with
  | .success txid =>
      let distribution := distribute_funds s inp.amount
      let payout_results := execute_payouts s distribution
      let record : TransactionRecord :=
        { transaction_id := txid
          amount := inp.amount
          customer_email := inp.customer_email
          distribution := distribution
          payouts := payout_results
          timestamp := inp.now
          status := "completed" }
      (.completed inp.amount distribution payout_results txid,
       { s with transaction_history := s.transaction_history ++ [record] })
  | .failed err => (.failed err, s)

/-- `FNBPaymentProcessor.get_transaction_history`: entries with timestamp at
or after `now - days`. -/
def get_transaction_history (s : ProcState) (now days : Int) : List TransactionRecord :=
  s.transaction_history.filter (fun t => decide (now - days ≤ t.timestamp))

/-- The dict returned by `FNBPaymentProcessor.get_revenue_summary`, with the
`distribution_summary` sub-dict flattened into three fields. -/
structure RevenueSummary where
  period : String
  total_revenue : ℚ
  total_transactions : Nat
  average_transaction_value : ℚ
  owner_total : ℚ
  ai_operations_total : ℚ
  reserve_total : ℚ
  success_rate : ℚ
  deriving DecidableEq

/-- `FNBPaymentProcessor.get_revenue_summary` over the last 30 days. -/
def get_revenue_summary (s : ProcState) (now : Int) : RevenueSummary :=
  let recent := get_transaction_history s now 30
  let total_revenue := (recent.map (·.amount)).sum
  let total_transactions := recent.length
  { period := "last_30_days"
    total_revenue := total_revenue
    total_transactions := total_transactions
    average_transaction_value :=
      if 0 < total_transactions then total_revenue / total_transactions else 0
    owner_total := (recent.map (fun t => t.distribution.owner_amount)).sum
    ai_operations_total := (recent.map (fun t => t.distribution.ai_operations_amount)).sum
    reserve_total := (recent.map (fun t => t.distribution.reserve_amount)).sum
    success_rate :=
      if 0 < total_transactions then
        (((recent.filter (fun t => t.status == "completed")).length : ℚ) : ℚ) / total_transactions
      else 0 }

/-- A sequence of `process_payment` calls from a starting state. -/
def run_payments (s : ProcState) (inputs : List PaymentInput) : ProcState :=
  inputs.foldl (fun st inp => (process_payment st inp).2) s

/-- Truncation of an amount to the currency's minor unit (cents), written
from the spec's words in §4.3 ("truncate each result to the currency's
minor-unit precision") to compare with what `_distribute_funds` computes. -/
def specTruncToMinorUnit (x : ℚ) : ℚ := (⌊x * 100⌋ : ℚ) / 100

/-! ## RevenueDistributor (ai_core/payment_processor.py, lines 153–270) -/

/-- One entry of `RevenueDistributor.daily_distributions`; only
`total_distributed` is read by `_calculate_growth_metrics`. -/
structure DistributionRecord where
  date : String
  total_distributed : ℚ
  transaction_count : Nat
  timestamp : Int
  deriving DecidableEq

/-- The dict returned by `RevenueDistributor._calculate_growth_metrics`; the
`momentum` key is absent (`none`) in the insufficient-data branch. -/
structure GrowthMetrics where
  weekly_growth : ℚ
  monthly_growth : ℚ
  trend : String
  momentum : Option String
  deriving DecidableEq

/-- `distributions[-7:] if len(distributions) >= 7 else distributions`. -/
def recentWeekSlice (ds : List DistributionRecord) : List DistributionRecord :=
  if 7 ≤ ds.length then ds.drop (ds.length - 7) else ds

/-- `distributions[-14:-7] if len(distributions) >= 14 else recent_week`. -/
def previousWeekSlice (ds : List DistributionRecord) : List DistributionRecord :=
  if 14 ≤ ds.length then (ds.drop (ds.length - 14)).take 7 else recentWeekSlice ds

/-- `RevenueDistributor._calculate_growth_metrics`. -/
def calculate_growth_metrics (ds : List DistributionRecord) : GrowthMetrics :=
  if ds.length < 2 then
    { weekly_growth := 0, monthly_growth := 0, trend := "insufficient_data", momentum := none }
  else
    let recent_week_revenue := ((recentWeekSlice ds).map (·.total_distributed)).sum
    let previous_week_revenue := ((previousWeekSlice ds).map (·.total_distributed)).sum
    let weekly_growth :=
      if 0 < previous_week_revenue then
        (recent_week_revenue - previous_week_revenue) / previous_week_revenue
      else 0
    { weekly_growth := weekly_growth
      monthly_growth := weekly_growth * 4
      trend := if 0 < weekly_growth then "growing" else "stable"
      momentum := some (if 1/10 < weekly_growth then "strong" else "moderate") }

/-! ## RevenueAnalytics (ai_core/revenue_tracker.py, lines 77–283)

The dataframe rows are the dicts appended by `RevenueTracker.track_revenue`,
so in this typed embedding the `week_number` and `timestamp` columns always
exist and the source's column-presence guards are statically true.  The
`timestamp` is a day index; a calendar date equals its index, and the day of
week is the index mod 7. -/

/-- One row of the analytics dataframe. -/
structure RevenueRecord where
  id : Nat
  amount : ℚ
  timestamp : Int
  week_number : Nat
  deriving DecidableEq

/-- Ascending insertion, for the sorted group keys pandas `groupby` uses. -/
def insertNatAsc (w : Nat) : List Nat → List Nat
  | [] => [w]
  | v :: vs => if w ≤ v then w :: v :: vs else v :: insertNatAsc w vs

/-- Sort a list of keys ascending. -/
def sortNatAsc (l : List Nat) : List Nat := l.foldr insertNatAsc []

/-- Ascending insertion for integer date keys. -/
def insertIntAsc (w : Int) : List Int → List Int
  | [] => [w]
  | v :: vs => if w ≤ v then w :: v :: vs else v :: insertIntAsc w vs

/-- Sort a list of integer date keys ascending. -/
def sortIntAsc (l : List Int) : List Int := l.foldr insertIntAsc []

/-- The distinct `week_number` keys in the `groupby` order (ascending). -/
def weekKeys (rows : List RevenueRecord) : List Nat :=
  sortNatAsc ((rows.map (·.week_number)).dedup)

/-- `df.groupby('week_number')['amount'].sum()` at one key. -/
def weekAmountSum (rows : List RevenueRecord) (w : Nat) : ℚ :=
  ((rows.filter (fun r => r.week_number == w)).map (·.amount)).sum

/-- The weekly revenue series, indexed by ascending week key. -/
def weeklyRevenue (rows : List RevenueRecord) : List ℚ :=
  (weekKeys rows).map (weekAmountSum rows)

/-- `RevenueAnalytics._calculate_growth_rate`: 0.1 default below 14 rows or
below two weekly groups, else `(current − previous) / previous` over the last
two weekly sums, with the 0.1 default again when the previous week is not
positive. -/
def calculate_growth_rate (rows : List RevenueRecord) : ℚ :=
  if rows.length < 14 then 1/10
  else
    let weekly := weeklyRevenue rows
    if weekly.length < 2 then 1/10
    else
      let current_week := weekly.getD (weekly.length - 1) 0
      let previous_week := weekly.getD (weekly.length - 2) 0
      if 0 < previous_week then (current_week - previous_week) / previous_week
      else 1/10

/-- One row of `_calculate_daily_revenue`'s `groupby('date')` result: summed
amount and counted ids per calendar date, in ascending date order. -/
structure DailyRow where
  date : Int
  amount : ℚ
  idCount : Nat
  deriving DecidableEq

/-- The distinct date keys in ascending `groupby` order. -/
def dateKeys (rows : List RevenueRecord) : List Int :=
  sortIntAsc ((rows.map (·.timestamp)).dedup)

/-- `RevenueAnalytics._calculate_daily_revenue`. -/
def calculate_daily_revenue (rows : List RevenueRecord) : List DailyRow :=
  (dateKeys rows).map (fun d =>
    let grp := rows.filter (fun r => r.timestamp == d)
    { date := d, amount := (grp.map (·.amount)).sum, idCount := grp.length })

/-- `RevenueAnalytics._calculate_weekly_growth`: the mean of the successive
week-over-week growth ratios.  A zero intermediate week would raise
`ZeroDivisionError` in Python; division by zero yields 0 in ℚ. -/
def calculate_weekly_growth (weekly : List ℚ) : ℚ :=
  if weekly.length < 2 then 0
  else
    let growth_rates := (List.range (weekly.length - 1)).map
      (fun i => (weekly.getD (i+1) 0 - weekly.getD i 0) / weekly.getD i 0)
    if growth_rates.length = 0 then 0 else growth_rates.sum / growth_rates.length

/-- The dict returned by `RevenueAnalytics._calculate_weekly_trend`; the
`weekly_growth` key is absent (`none`) in the insufficient-data branch. -/
structure WeeklyTrend where
  trend : String
  weekly_growth : Option ℚ
  confidence : String
  deriving DecidableEq

/-- `RevenueAnalytics._calculate_weekly_trend`: trend of the last two of the
last four weekly sums. -/
def calculate_weekly_trend (rows : List RevenueRecord) : WeeklyTrend :=
  let weekly := weeklyRevenue rows
  if weekly.length < 2 then
    { trend := "insufficient_data", weekly_growth := none, confidence := "low" }
  else
    let recent_weeks := weekly.drop (weekly.length - 4)
    let trend :=
      if 2 ≤ recent_weeks.length then
        if recent_weeks.getD (recent_weeks.length - 2) 0
            < recent_weeks.getD (recent_weeks.length - 1) 0 then "growing" else "declining"
      else "stable"
    { trend := trend, weekly_growth := some (calculate_weekly_growth weekly)
      confidence := "medium" }

/-- `RevenueTracker.daily_targets`; the analytics reads these via
`targets.get(...)`, whose defaults never fire since the keys are present. -/
structure Targets where
  subscribers : ℚ
  revenue_zar : ℚ
  conversion_rate : ℚ
  deriving DecidableEq

/-- `RevenueTracker.__init__`'s daily targets. -/
def daily_targets : Targets :=
  { subscribers := 715, revenue_zar := 3570000, conversion_rate := 8/100 }

/-- The dict returned by `RevenueAnalytics._calculate_target_performance`. -/
structure TargetPerformance where
  revenue_target_achievement : ℚ
  subscriber_target_achievement : ℚ
  overall_performance : ℚ
  status : String
  deriving DecidableEq

/-- `RevenueAnalytics._calculate_target_performance`. -/
def calculate_target_performance (total_revenue : ℚ) (total_subscribers : Nat)
    (targets : Targets) : TargetPerformance :=
  let revenue_performance := total_revenue / targets.revenue_zar * 100
  let subscriber_performance := (total_subscribers : ℚ) / targets.subscribers * 100
  { revenue_target_achievement := min revenue_performance 100
    subscriber_target_achievement := min subscriber_performance 100
    overall_performance := (revenue_performance + subscriber_performance) / 2
    status :=
      if 80 ≤ revenue_performance ∧ 80 ≤ subscriber_performance then "on_track"
      else "needs_attention" }

/-- The dict returned by `RevenueAnalytics._generate_forecast`; `none`
encodes the `"insufficient_data"` placeholder strings. -/
structure Forecast where
  next_week_forecast : Option ℚ
  next_month_forecast : Option ℚ
  confidence : String
  assumptions : List String
  deriving DecidableEq

/-- `RevenueAnalytics._generate_forecast`. -/
def generate_forecast (rows : List RevenueRecord) : Forecast :=
  if rows.length < 7 then
    { next_week_forecast := none, next_month_forecast := none, confidence := "low"
      assumptions := [] }
  else
    let recent_revenue := ((rows.drop (rows.length - 7)).map (·.amount)).sum
    let growth_rate := calculate_growth_rate rows
    { next_week_forecast := some (recent_revenue * (1 + growth_rate))
      next_month_forecast := some (recent_revenue * 4 * (1 + growth_rate)^4)
      confidence := "medium"
      assumptions := ["Current growth rate continues", "No major market changes"] }

/-- `RevenueAnalytics._estimate_cac`: the source returns
`random.uniform(500, 2000)`; the draw is threaded as an explicit input. -/
def estimate_cac (cacDraw : ℚ) : ℚ := cacDraw

/-- Day of week of a day-index timestamp, as 0..6.  Pandas groups day names
alphabetically; the numeric keys stand in for the names, which only permutes
the grouping order. -/
def dayOfWeek (t : Int) : Nat := (t % 7).toNat

/-- The distinct day-of-week keys in `groupby` order. -/
def dayKeys (rows : List RevenueRecord) : List Nat :=
  sortNatAsc ((rows.map (fun r => dayOfWeek r.timestamp)).dedup)

/-- `df.groupby('day_of_week')['amount'].sum()` at one key. -/
def dayAmountSum (rows : List RevenueRecord) (d : Nat) : ℚ :=
  ((rows.filter (fun r => dayOfWeek r.timestamp == d)).map (·.amount)).sum

/-- `idxmax`: the first key attaining the maximal value. -/
def idxmaxFrom : List (Nat × ℚ) → Option (Nat × ℚ)
  | [] => none
  | (k, v) :: rest =>
      match idxmaxFrom rest with
      | none => some (k, v)
      | some (k₂, v₂) => if v < v₂ then some (k₂, v₂) else some (k, v)

/-- `RevenueAnalytics._get_best_performing_day`; `none` encodes the
`"unknown"` answer for an empty series. -/
def get_best_performing_day (rows : List RevenueRecord) : Option Nat :=
  (idxmaxFrom ((dayKeys rows).map (fun d => (d, dayAmountSum rows d)))).map Prod.fst

/-- `RevenueAnalytics._assess_momentum`.  With fewer than 14 rows and an
all-zero recent revenue, the Python divides by zero; in ℚ that division
yields 0. -/
def assess_momentum (rows : List RevenueRecord) : String :=
  if rows.length < 2 then "starting"
  else
    let recent_days := rows.drop (rows.length - 7)
    if recent_days.length < 2 then "stable"
    else
      let current_revenue := (recent_days.map (·.amount)).sum
      let previous_revenue :=
        if 14 ≤ rows.length then ((rows.take 7).map (·.amount)).sum
        else current_revenue * (8/10)
      let momentum := (current_revenue - previous_revenue) / previous_revenue
      if 1/10 < momentum then "accelerating"
      else if 0 < momentum then "growing"
      else if -(1/10) < momentum then "stable"
      else "slowing"

/-- `RevenueAnalytics._generate_recommendations` (the dataframe argument is
unused in the source). -/
def generate_recommendations (_rows : List RevenueRecord)
    (target_performance : TargetPerformance) : List String :=
  (if target_performance.revenue_target_achievement < 80 then
      ["Increase marketing spend on high-converting channels",
       "Optimize pricing strategy for better conversion",
       "Launch limited-time promotion to boost sales"]
    else []) ++
  (if target_performance.subscriber_target_achievement < 80 then
      ["Improve onboarding experience for new users",
       "Enhance free trial to paid conversion funnel",
       "Implement referral program to leverage existing users"]
    else []) ++
  ["Analyze customer lifetime value by acquisition channel",
   "Test different pricing tiers and packages",
   "Optimize checkout process for higher completion rates"]

/-- The `summary_metrics` sub-dict of `analyze_revenue`'s result. -/
structure SummaryMetrics where
  total_revenue : ℚ
  total_subscribers : Nat
  average_transaction_value : ℚ
  revenue_growth_rate : ℚ
  customer_acquisition_cost : ℚ
  deriving DecidableEq

/-- The `time_analysis` sub-dict of `analyze_revenue`'s result. -/
structure TimeAnalysis where
  daily_revenue : List DailyRow
  weekly_trend : WeeklyTrend
  best_performing_day : Option Nat
  revenue_momentum : String
  deriving DecidableEq

/-- The dict returned by `RevenueAnalytics.analyze_revenue`: either the
no-data status dict or the full report. -/
inductive AnalyzeResult where
  | no_data (status : String) (message : String)
  | report (summary_metrics : SummaryMetrics) (time_analysis : TimeAnalysis)
      (target_performance : TargetPerformance) (predictive_insights : Forecast)
      (optimization_recommendations : List String)
  deriving DecidableEq

/-- `RevenueAnalytics.analyze_revenue`.  `cacDraw` is the
`random.uniform(500, 2000)` draw consumed by `_estimate_cac` — the only
randomness in the call tree. -/
def analyze_revenue (revenue_data : List RevenueRecord) (targets : Targets)
    (cacDraw : ℚ) : AnalyzeResult :=
  if revenue_data = [] then .no_data "no_data" "No revenue data available"
  else
    let total_revenue := (revenue_data.map (·.amount)).sum
    let total_subscribers := revenue_data.length
    let avg_transaction_value := total_revenue / (total_subscribers : ℚ)
    let target_performance :=
      calculate_target_performance total_revenue total_subscribers targets
    .report
      { total_revenue := total_revenue
        total_subscribers := total_subscribers
        average_transaction_value := avg_transaction_value
        revenue_growth_rate := calculate_growth_rate revenue_data
        customer_acquisition_cost := estimate_cac cacDraw }
      { daily_revenue := calculate_daily_revenue revenue_data
        weekly_trend := calculate_weekly_trend revenue_data
        best_performing_day := get_best_performing_day revenue_data
        revenue_momentum := assess_momentum revenue_data }
      target_performance
      (generate_forecast revenue_data)
      (generate_recommendations revenue_data target_performance)

/-- Replace the one random-sourced field of an analytics report by 0, to
compare reports produced from different random draws. -/
def setCacToZero : AnalyzeResult → AnalyzeResult
  | .no_data st msg => .no_data st msg
  | .report sm ta tp f recs =>
      .report { sm with customer_acquisition_cost := 0 } ta tp f recs

/-- The `customer_acquisition_cost` field of an analytics report. -/
def cacOf : AnalyzeResult → Option ℚ
  | .no_data _ _ => none
  | .report sm _ _ _ _ => some sm.customer_acquisition_cost

/-! ## Ledger Store (spec §4.1; no implementation exists under src) -/

/-- Modelled from the spec: transaction status of the Ledger Store's
`Transaction` record (§3); the repository has no Ledger Store code. -/
inductive TxStatus where
  | pending
  | completed
  | failed
  deriving DecidableEq

/-- Modelled from the spec: the outcome argument of `finalize_transaction`. -/
inductive TxOutcome where
  | completed
  | failed
  deriving DecidableEq

/-- The terminal status a finalization outcome sets. -/
def TxOutcome.toStatus : TxOutcome → TxStatus
  | .completed => .completed
  | .failed => .failed

/-- Modelled from the spec: the error taxonomy of §4.1/§7 for finalization. -/
inductive LedgerError where
  | UnknownTransaction
  | AlreadyFinalized
  deriving DecidableEq

/-- Modelled from the spec: the Ledger Store's transaction table, as an
association of transaction ids to statuses. -/
abbrev Ledger := List (Nat × TxStatus)

/-- Status lookup by transaction id. -/
def lookupTx : Ledger → Nat → Option TxStatus
  | [], _ => none
  | (i, st) :: rest, tid => if i = tid then some st else lookupTx rest tid

/-- In-place status update by transaction id. -/
def setTx : Ledger → Nat → TxStatus → Ledger
  | [], _, _ => []
  | (i, st) :: rest, tid, newSt =>
      if i = tid then (i, newSt) :: rest else (i, st) :: setTx rest tid newSt

/-- Modelled from the spec: `finalize_transaction(id, outcome)` of §4.1 —
fails with `UnknownTransaction` if the id is absent, with `AlreadyFinalized`
if the status is not `pending`, and otherwise sets the terminal status. -/
def finalize_transaction (L : Ledger) (tid : Nat) (o : TxOutcome) :
    Except LedgerError Ledger :=
  match lookupTx L tid with
  | none => .error .UnknownTransaction
  | some .pending => .ok (setTx L tid o.toStatus)
  | some .completed => .error .AlreadyFinalized
  | some .failed => .error .AlreadyFinalized

/-! ## Concrete inputs used by witnesses and counterexamples -/

/-- Fourteen analytics rows whose previous weekly total is 0: seven rows of
week 1 with amount 0, then seven rows of week 2 with amount 100. -/
def rowsZeroPrevWeek : List RevenueRecord :=
  [{ id := 0, amount := 0, timestamp := 0, week_number := 1 },
   { id := 1, amount := 0, timestamp := 1, week_number := 1 },
   { id := 2, amount := 0, timestamp := 2, week_number := 1 },
   { id := 3, amount := 0, timestamp := 3, week_number := 1 },
   { id := 4, amount := 0, timestamp := 4, week_number := 1 },
   { id := 5, amount := 0, timestamp := 5, week_number := 1 },
   { id := 6, amount := 0, timestamp := 6, week_number := 1 },
   { id := 7, amount := 100, timestamp := 7, week_number := 2 },
   { id := 8, amount := 100, timestamp := 8, week_number := 2 },
   { id := 9, amount := 100, timestamp := 9, week_number := 2 },
   { id := 10, amount := 100, timestamp := 10, week_number := 2 },
   { id := 11, amount := 100, timestamp := 11, week_number := 2 },
   { id := 12, amount := 100, timestamp := 12, week_number := 2 },
   { id := 13, amount := 100, timestamp := 13, week_number := 2 }]

/-- Fourteen distribution records whose previous-week slice sums to 0. -/
def dsZeroPrevWeek : List DistributionRecord :=
  [{ date := "2025-01-01", total_distributed := 0, transaction_count := 1, timestamp := 0 },
   { date := "2025-01-02", total_distributed := 0, transaction_count := 1, timestamp := 1 },
   { date := "2025-01-03", total_distributed := 0, transaction_count := 1, timestamp := 2 },
   { date := "2025-01-04", total_distributed := 0, transaction_count := 1, timestamp := 3 },
   { date := "2025-01-05", total_distributed := 0, transaction_count := 1, timestamp := 4 },
   { date := "2025-01-06", total_distributed := 0, transaction_count := 1, timestamp := 5 },
   { date := "2025-01-07", total_distributed := 0, transaction_count := 1, timestamp := 6 },
   { date := "2025-01-08", total_distributed := 100, transaction_count := 1, timestamp := 7 },
   { date := "2025-01-09", total_distributed := 100, transaction_count := 1, timestamp := 8 },
   { date := "2025-01-10", total_distributed := 100, transaction_count := 1, timestamp := 9 },
   { date := "2025-01-11", total_distributed := 100, transaction_count := 1, timestamp := 10 },
   { date := "2025-01-12", total_distributed := 100, transaction_count := 1, timestamp := 11 },
   { date := "2025-01-13", total_distributed := 100, transaction_count := 1, timestamp := 12 },
   { date := "2025-01-14", total_distributed := 100, transaction_count := 1, timestamp := 13 }]

/-- A one-transaction ledger holding a pending transaction. -/
def ledgerOnePending : Ledger := [(1, TxStatus.pending)]

/-- A one-row revenue data set for exercising the analytics. -/
def sampleRevenueData : List RevenueRecord :=
  [{ id := 1, amount := 2497, timestamp := 0, week_number := 1 }]

/-! ## Concrete inputs used by witnesses and counterexamples (payments) -/

/-- A transaction record for exercising determinism across distinct states. -/
def sampleRecord : TransactionRecord :=
  { transaction_id := "FNB_0123456789abcdef"
    amount := 100
    customer_email := "customer0@example.com"
    distribution := distribute_funds initState 100
    payouts := execute_payouts initState (distribute_funds initState 100)
    timestamp := 0
    status := "completed" }

/-- `initState` after one recorded transaction. -/
def stateWithHistory : ProcState :=
  { initState with transaction_history := [sampleRecord] }

/-- A payment input with a non-positive amount and a successful gateway. -/
def negInput : PaymentInput :=
  { amount := -100, customer_email := "customer0@example.com"
    gateway := .success "FNB_0123456789abcdef", now := 0 }

/-- A payment input whose gateway charge fails. -/
def failInput : PaymentInput :=
  { amount := 2497, customer_email := "customer0@example.com"
    gateway := .failed "Payment processing failed - please try again", now := 0 }

/-- A payment input with a successful gateway charge. -/
def okInput : PaymentInput :=
  { amount := 2497, customer_email := "customer0@example.com"
    gateway := .success "FNB_0123456789abcdef", now := 0 }

/-! ## Theorems -/

/-- C1: for every positive amount `A`, the three bucket amounts computed by
`_distribute_funds A` sum to exactly `A` — the configured fractions 0.60,
0.20, 0.20 sum to 1 and `Decimal` multiplication is exact here, so there is
no rounding drift. -/
theorem distribute_funds_sum_exact (A : ℚ) (h : 0 < A) :
    (distribute_funds initState A).owner_amount
      + (distribute_funds initState A).ai_operations_amount
      + (distribute_funds initState A).reserve_amount = A := by
  simp only [distribute_funds, initState]
  ring

theorem distribute_funds_sum_exact_witness :
    (0:ℚ) < 100 ∧
      (distribute_funds initState 100).owner_amount
        + (distribute_funds initState 100).ai_operations_amount
        + (distribute_funds initState 100).reserve_amount = 100 :=
  ⟨by norm_num, distribute_funds_sum_exact 100 (by norm_num)⟩

/-- C3: splitting ZAR 2497.00 with the configured ratios yields exactly
1498.20 / 499.40 / 499.40, summing to 2497.00. -/
theorem distribute_funds_zar_2497 :
    (distribute_funds initState 2497).owner_amount = 1498.20 ∧
    (distribute_funds initState 2497).ai_operations_amount = 499.40 ∧
    (distribute_funds initState 2497).reserve_amount = 499.40 ∧
    (distribute_funds initState 2497).owner_amount
      + (distribute_funds initState 2497).ai_operations_amount
      + (distribute_funds initState 2497).reserve_amount = 2497 := by
  norm_num [distribute_funds, initState]

/-- C8: `_distribute_funds` is pure and deterministic: its output depends
only on the amount and the configured ratio mapping — not on the transaction
history or any randomness (it takes no random input at all) — so two calls
with identical inputs yield identical outputs. -/
theorem distribute_funds_deterministic (s₁ s₂ : ProcState) (A : ℚ)
    (h : s₁.payout_distribution = s₂.payout_distribution) :
    distribute_funds s₁ A = distribute_funds s₂ A := by
  simp [distribute_funds, h]

theorem distribute_funds_deterministic_witness :
    initState.payout_distribution = stateWithHistory.payout_distribution ∧
      distribute_funds initState 100 = distribute_funds stateWithHistory 100 :=
  ⟨rfl, distribute_funds_deterministic initState stateWithHistory 100 rfl⟩

/-- C4: when the gateway charge fails, `process_payment` returns the
`payment_status: "failed"` dict carrying exactly the gateway's error — with
no distribution and no payouts — and the processor state (in particular
`transaction_history`) is unchanged. -/
theorem process_payment_gateway_failure (s : ProcState) (inp : PaymentInput) (err : String)
    (h : inp.gateway = .failed err) :
    process_payment s inp = (.failed err, s) := by
  simp [process_payment, h]

theorem process_payment_gateway_failure_witness :
    failInput.gateway = .failed "Payment processing failed - please try again" ∧
      process_payment initState failInput
        = (.failed "Payment processing failed - please try again", initState) :=
  ⟨rfl, process_payment_gateway_failure initState failInput
    "Payment processing failed - please try again" rfl⟩

/-- C2 counterexample: at A = 0.01 the owner bucket produced by
`_distribute_funds` is 0.006 — not `A * 0.60` truncated to cent precision
(which is 0.00).  The code performs no minor-unit truncation at all. -/
theorem distribute_funds_no_truncation_cex :
    (distribute_funds initState (1/100)).owner_amount
      ≠ specTruncToMinorUnit ((1/100) * initState.payout_distribution.owner) := by
  have h3 : ((1:ℚ)/100) * initState.payout_distribution.owner * 100 = 3/5 := by
    norm_num [initState]
  have hf : ⌊((3:ℚ)/5)⌋ = 0 := by
    rw [Int.floor_eq_iff] <;> norm_num
  have h2 : specTruncToMinorUnit ((1/100) * initState.payout_distribution.owner) = 0 := by
    rw [specTruncToMinorUnit, h3, hf]
    norm_num
  rw [h2]
  norm_num [distribute_funds, initState]

/-- C2 amended: each bucket amount equals `A` times that bucket's configured
fraction exactly, with full (sub-cent) precision and no truncation; because
the fractions sum to 1 the remainder `A − (sum of parts)` is 0, so no
remainder bucket exists or is needed. -/
theorem distribute_funds_exact_products (A : ℚ) (h : 0 < A) :
    (distribute_funds initState A).owner_amount = A * (60/100) ∧
    (distribute_funds initState A).ai_operations_amount = A * (20/100) ∧
    (distribute_funds initState A).reserve_amount = A * (20/100) ∧
    A - ((distribute_funds initState A).owner_amount
        + (distribute_funds initState A).ai_operations_amount
        + (distribute_funds initState A).reserve_amount) = 0 := by
  refine ⟨rfl, rfl, rfl, ?_⟩
  simp only [distribute_funds, initState]
  ring

theorem distribute_funds_exact_products_witness :
    (0:ℚ) < 1/100 ∧
      ((distribute_funds initState (1/100)).owner_amount = (1/100) * (60/100) ∧
       (distribute_funds initState (1/100)).ai_operations_amount = (1/100) * (20/100) ∧
       (distribute_funds initState (1/100)).reserve_amount = (1/100) * (20/100) ∧
       (1/100 : ℚ) - ((distribute_funds initState (1/100)).owner_amount
          + (distribute_funds initState (1/100)).ai_operations_amount
          + (distribute_funds initState (1/100)).reserve_amount) = 0) :=
  ⟨by norm_num, distribute_funds_exact_products (1/100) (by norm_num)⟩

/-- C5 counterexample: with amount −100 (≤ 0) and a successful gateway
outcome, `process_payment` raises no `InvalidAmount`: it consults the
gateway, computes a distribution and records a completed transaction. -/
theorem process_payment_no_amount_validation_cex :
    (process_payment initState negInput).2.transaction_history ≠ [] ∧
      (process_payment initState negInput).1
        = .completed (-100) (distribute_funds initState (-100))
            (execute_payouts initState (distribute_funds initState (-100)))
            "FNB_0123456789abcdef" := by
  constructor
  · decide
  · rfl

/-- C5 amended: `process_payment` performs no amount validation — there is no
`InvalidAmount` rejection.  For every amount, including non-positive ones,
the gateway outcome alone decides: on gateway success the distribution is
computed and a completed transaction is appended to the history. -/
theorem process_payment_accepts_nonpositive (s : ProcState) (inp : PaymentInput) (txid : String)
    (ha : inp.amount ≤ 0) (hg : inp.gateway = .success txid) :
    (process_payment s inp).1
        = .completed inp.amount (distribute_funds s inp.amount)
            (execute_payouts s (distribute_funds s inp.amount)) txid ∧
      (process_payment s inp).2.transaction_history
        = s.transaction_history ++
            [{ transaction_id := txid
               amount := inp.amount
               customer_email := inp.customer_email
               distribution := distribute_funds s inp.amount
               payouts := execute_payouts s (distribute_funds s inp.amount)
               timestamp := inp.now
               status := "completed" }] := by
  simp [process_payment, hg]

theorem process_payment_accepts_nonpositive_witness :
    negInput.amount ≤ 0 ∧ negInput.gateway = .success "FNB_0123456789abcdef" ∧
      (process_payment initState negInput).1
        = .completed negInput.amount (distribute_funds initState negInput.amount)
            (execute_payouts initState (distribute_funds initState negInput.amount))
            "FNB_0123456789abcdef" ∧
      (process_payment initState negInput).2.transaction_history
        = initState.transaction_history ++
            [{ transaction_id := "FNB_0123456789abcdef"
               amount := negInput.amount
               customer_email := negInput.customer_email
               distribution := distribute_funds initState negInput.amount
               payouts := execute_payouts initState (distribute_funds initState negInput.amount)
               timestamp := negInput.now
               status := "completed" }] := by
  refine ⟨by decide, rfl, ?_⟩
  exact process_payment_accepts_nonpositive initState negInput "FNB_0123456789abcdef"
    (by decide) rfl

/-- Every record ever appended by `process_payment` has status `"completed"`
and carries payouts whose three transfers report `"completed"` — the helper
invariant behind C10, preserved by every call. -/
theorem mem_run_payments_history (inputs : List PaymentInput) (s : ProcState)
    (hs : ∀ r ∈ s.transaction_history,
        r.status = "completed" ∧ r.payouts.owner.status = "completed" ∧
        r.payouts.ai_operations.status = "completed" ∧
        r.payouts.reserve.status = "completed") :
    ∀ r ∈ (run_payments s inputs).transaction_history,
        r.status = "completed" ∧ r.payouts.owner.status = "completed" ∧
        r.payouts.ai_operations.status = "completed" ∧
        r.payouts.reserve.status = "completed" := by
  induction inputs generalizing s with
  | nil => exact hs
  | cons inp rest ih =>
      show ∀ r ∈ (run_payments (process_payment s inp).2 rest).transaction_history, _
      apply ih
      intro r hr
      cases hg : inp.gateway with
      | success txid =>
          simp only [process_payment, hg] at hr
          rcases List.mem_append.mp hr with h1 | h2
          · exact hs r h1
          · simp only [List.mem_singleton] at h2
            subst h2
            exact ⟨rfl, rfl, rfl, rfl⟩
      | failed err =>
          simp only [process_payment, hg] at hr
          exact hs r hr

/-- C10: after any sequence of `process_payment` calls, every record in
`transaction_history` has status `"completed"` and carries completed payout
results (failed charges never append), so whenever the 30-day window is
non-empty `get_revenue_summary` reports a success rate of exactly 1. -/
theorem history_only_completed_success_rate_one (inputs : List PaymentInput) (now : Int)
    (h : get_transaction_history (run_payments initState inputs) now 30 ≠ []) :
    (∀ r ∈ (run_payments initState inputs).transaction_history,
        r.status = "completed" ∧ r.payouts.owner.status = "completed" ∧
        r.payouts.ai_operations.status = "completed" ∧
        r.payouts.reserve.status = "completed") ∧
    (get_revenue_summary (run_payments initState inputs) now).success_rate = 1 := by
  have hall := mem_run_payments_history inputs initState (by intro r hr; simp [initState] at hr)
  refine ⟨hall, ?_⟩
  have hmem : ∀ r ∈ get_transaction_history (run_payments initState inputs) now 30,
      r.status = "completed" := by
    intro r hr
    exact (hall r (List.mem_of_mem_filter hr)).1
  have hfilter : (get_transaction_history (run_payments initState inputs) now 30).filter
      (fun t => t.status == "completed")
      = get_transaction_history (run_payments initState inputs) now 30 := by
    apply List.filter_eq_self.mpr
    intro a ha
    simpa using hmem a ha
  have hlen : 0 < (get_transaction_history (run_payments initState inputs) now 30).length :=
    List.length_pos.mpr h
  have hne : ((get_transaction_history (run_payments initState inputs) now 30).length : ℚ) ≠ 0 :=
    Nat.cast_ne_zero.mpr hlen.ne'
  simp only [get_revenue_summary, hfilter, if_pos hlen]
  exact div_self hne

theorem history_only_completed_success_rate_one_witness :
    get_transaction_history (run_payments initState [okInput]) 0 30 ≠ [] ∧
      ((∀ r ∈ (run_payments initState [okInput]).transaction_history,
          r.status = "completed" ∧ r.payouts.owner.status = "completed" ∧
          r.payouts.ai_operations.status = "completed" ∧
          r.payouts.reserve.status = "completed") ∧
        (get_revenue_summary (run_payments initState [okInput]) 0).success_rate = 1) :=
  ⟨by decide, history_only_completed_success_rate_one [okInput] 0 (by decide)⟩

/-- The weekly revenue series of the fourteen-row example has exactly the two
weekly groups. -/
theorem weeklyRevenue_rowsZeroPrevWeek :
    weeklyRevenue rowsZeroPrevWeek
      = [weekAmountSum rowsZeroPrevWeek 1, weekAmountSum rowsZeroPrevWeek 2] := by
  rw [weeklyRevenue]
  rw [show weekKeys rowsZeroPrevWeek = [1, 2] from by decide]
  rfl

/-- Week 1 of the fourteen-row example sums to 0. -/
theorem weekAmountSum_rowsZeroPrevWeek_one : weekAmountSum rowsZeroPrevWeek 1 = 0 := by
  simp [weekAmountSum, rowsZeroPrevWeek]

/-- The previous-week entry of the fourteen-row example's weekly series is 0. -/
theorem weeklyRevenue_rowsZeroPrevWeek_prev :
    (weeklyRevenue rowsZeroPrevWeek).getD
      ((weeklyRevenue rowsZeroPrevWeek).length - 2) 0 = 0 := by
  rw [weeklyRevenue_rowsZeroPrevWeek]
  simp [weekAmountSum_rowsZeroPrevWeek_one]

/-- C6 counterexample: over fourteen rows whose previous weekly total is 0,
`RevenueAnalytics._calculate_growth_rate` returns its 0.1 default — not the 0
the claim requires for a zero previous window. -/
theorem calculate_growth_rate_zero_prev_cex :
    (weeklyRevenue rowsZeroPrevWeek).getD
        ((weeklyRevenue rowsZeroPrevWeek).length - 2) 0 = 0 ∧
      calculate_growth_rate rowsZeroPrevWeek = 1/10 ∧
      calculate_growth_rate rowsZeroPrevWeek ≠ 0 := by
  have hrate : calculate_growth_rate rowsZeroPrevWeek = 1/10 := by
    simp only [calculate_growth_rate]
    rw [if_neg (by decide : ¬ rowsZeroPrevWeek.length < 14),
      if_neg (by rw [weeklyRevenue_rowsZeroPrevWeek]; simp :
        ¬ (weeklyRevenue rowsZeroPrevWeek).length < 2),
      if_neg (by rw [weeklyRevenue_rowsZeroPrevWeek_prev]; exact lt_irrefl 0)]
  exact ⟨weeklyRevenue_rowsZeroPrevWeek_prev, hrate, by rw [hrate]; norm_num⟩

/-- C6 amended: the growth rate is `(current − previous) / previous` in both
implementations, and neither raises on a zero previous window, but they
disagree on the default: `RevenueDistributor._calculate_growth_metrics`
reports 0 when the previous-week revenue is not positive, while
`RevenueAnalytics._calculate_growth_rate` reports its 0.1 default. -/
theorem growth_zero_previous_window_behavior :
    (∀ ds : List DistributionRecord, 2 ≤ ds.length →
        ((previousWeekSlice ds).map (·.total_distributed)).sum ≤ 0 →
        (calculate_growth_metrics ds).weekly_growth = 0) ∧
    (∀ rows : List RevenueRecord, 14 ≤ rows.length →
        2 ≤ (weeklyRevenue rows).length →
        (weeklyRevenue rows).getD ((weeklyRevenue rows).length - 2) 0 ≤ 0 →
        calculate_growth_rate rows = 1/10) := by
  constructor
  · intro ds h2 hp
    have hlen : ¬ ds.length < 2 := by omega
    have hprev : ¬ 0 < ((previousWeekSlice ds).map (·.total_distributed)).sum :=
      not_lt.mpr hp
    simp [calculate_growth_metrics, hlen, hprev]
  · intro rows h14 hw hp
    simp only [calculate_growth_rate]
    rw [if_neg (by omega : ¬ rows.length < 14),
      if_neg (by omega : ¬ (weeklyRevenue rows).length < 2),
      if_neg (not_lt.mpr hp)]

theorem growth_zero_previous_window_behavior_witness :
    (calculate_growth_metrics dsZeroPrevWeek).weekly_growth = 0 ∧
      calculate_growth_rate rowsZeroPrevWeek = 1/10 := by
  have hlen : 2 ≤ (weeklyRevenue rowsZeroPrevWeek).length := by
    rw [weeklyRevenue_rowsZeroPrevWeek]
    simp
  have hprev : (weeklyRevenue rowsZeroPrevWeek).getD
      ((weeklyRevenue rowsZeroPrevWeek).length - 2) 0 ≤ 0 :=
    le_of_eq weeklyRevenue_rowsZeroPrevWeek_prev
  refine ⟨growth_zero_previous_window_behavior.1 dsZeroPrevWeek (by decide) ?_,
    growth_zero_previous_window_behavior.2 rowsZeroPrevWeek (by decide) hlen hprev⟩
  simp [dsZeroPrevWeek, previousWeekSlice, recentWeekSlice]

/-- A successful status update is visible: if the id is present, looking it
up after `setTx` returns the new status. -/
theorem lookupTx_setTx_self (L : Ledger) (tid : Nat) (st : TxStatus)
    (h : (lookupTx L tid).isSome) :
    lookupTx (setTx L tid st) tid = some st := by
  induction L with
  | nil => simp [lookupTx] at h
  | cons p rest ih =>
      obtain ⟨i, s⟩ := p
      by_cases hi : i = tid
      · subst hi
        simp [lookupTx, setTx]
      · simp only [lookupTx, setTx, if_neg hi] at h ⊢
        exact ih h

/-- C9: a transaction finalized once cannot be finalized again — the second
`finalize_transaction` on the same id fails with `AlreadyFinalized` — and the
terminal status set by the first call is what the ledger still reports. -/
theorem finalize_transaction_twice (L L₂ : Ledger) (tid : Nat) (o o₂ : TxOutcome)
    (h : finalize_transaction L tid o = .ok L₂) :
    finalize_transaction L₂ tid o₂ = .error .AlreadyFinalized ∧
      lookupTx L₂ tid = some o.toStatus := by
  rw [finalize_transaction] at h
  cases hl : lookupTx L tid with
  | none => rw [hl] at h; cases h
  | some st =>
      cases st with
      | pending =>
          rw [hl] at h
          simp only [Except.ok.injEq] at h
          subst h
          have hsome : (lookupTx L tid).isSome := by rw [hl]; rfl
          have hlook := lookupTx_setTx_self L tid o.toStatus hsome
          refine ⟨?_, hlook⟩
          rw [finalize_transaction, hlook]
          cases o <;> rfl
      | completed => rw [hl] at h; cases h
      | failed => rw [hl] at h; cases h

theorem finalize_transaction_twice_witness :
    finalize_transaction [(1, TxStatus.completed)] 1 TxOutcome.failed
        = .error .AlreadyFinalized ∧
      lookupTx [(1, TxStatus.completed)] 1 = some TxOutcome.completed.toStatus :=
  finalize_transaction_twice ledgerOnePending [(1, TxStatus.completed)] 1
    TxOutcome.completed TxOutcome.failed rfl

/-- C7 counterexample: two `analyze_revenue` calls on the same revenue data
and targets, whose hidden `random.uniform(500, 2000)` draws happen to be 500
and 1999, return different results — `_estimate_cac`'s randomness leaks into
`customer_acquisition_cost`, so the analytics is not a pure read. -/
theorem analyze_revenue_not_pure_cex :
    analyze_revenue sampleRevenueData daily_targets 500
      ≠ analyze_revenue sampleRevenueData daily_targets 1999 := by
  intro h
  have h₅ : cacOf (analyze_revenue sampleRevenueData daily_targets 500) = some 500 := by
    simp [analyze_revenue, sampleRevenueData, cacOf, estimate_cac]
  have h₉ : cacOf (analyze_revenue sampleRevenueData daily_targets 1999) = some 1999 := by
    simp [analyze_revenue, sampleRevenueData, cacOf, estimate_cac]
  rw [h, h₉] at h₅
  exact absurd (Option.some.inj h₅) (by norm_num)

/-- C7 amended: `analyze_revenue` is deterministic in its arguments except
for the `customer_acquisition_cost` field, which is a fresh
`random.uniform(500, 2000)` draw per call: with the draw masked out, any two
calls on the same data and targets agree on every remaining field. -/
theorem analyze_revenue_pure_mod_cac (d : List RevenueRecord) (t : Targets) (r₁ r₂ : ℚ) :
    setCacToZero (analyze_revenue d t r₁) = setCacToZero (analyze_revenue d t r₂) := by
  by_cases h : d = [] <;> simp [analyze_revenue, h, setCacToZero, estimate_cac]
